import Mathlib

/-!
Verification development for the autogenjobidtool repository.

The definitions below are a shallow embedding of the Python sources:

* `src/src/utils/error_handler.py` — error categories, severities,
  retry configuration, recoverability, retry-delay computation and the
  event-level semantics of `ErrorHandler.execute_with_retry` and
  `ErrorHandler.cleanup_old_error_logs`;
* `src/src/utils/parallel_action_executor.py` — per-action isolation of
  `ParallelActionExecutor.execute_parallel`;
* `src/src/controller/main_controller.py` — the processing cycle and the
  two-wave parallel-action phase;
* `src/src/scheduler/job_scheduler.py` — `Scheduler.get_next_run_time`.

Conventions: Python exceptions are values of `PyError` (exception class
name plus message); operations that can raise are `Except PyError`
valued; machine-opaque effects (clock, random jitter, file system,
network) are passed in as explicit oracle arguments; real-valued
durations and delays are rationals.
-/

/-- A Python exception as observed by the error handler:
`type(error).__name__` and `str(error)`. -/
structure PyError where
  exc_type : String
  msg : String
  deriving DecidableEq, Repr

/-- `ErrorCategory` enum from `error_handler.py`. -/
inductive ErrorCategory where
  | configuration
  | sftp_connection
  | sftp_file_operation
  | file_processing
  | document_parsing
  | email_notif
  | database_operation
  | system_resource
  | validation
  | unknown
  deriving DecidableEq, Repr

/-- `ErrorSeverity` enum from `error_handler.py`. -/
inductive ErrorSeverity where
  | critical
  | high
  | medium
  | low
  deriving DecidableEq, Repr

/-- `RetryConfig` dataclass from `error_handler.py`.  Delays are modelled
as rationals. -/
structure RetryConfig where
  max_attempts : Nat
  base_delay : ℚ
  max_delay : ℚ
  exponential_backoff : Bool
  jitter : Bool
  deriving DecidableEq, Repr

/-- The dataclass defaults of `RetryConfig` (`max_attempts=3`,
`base_delay=1.0`, `max_delay=60.0`, `exponential_backoff=True`,
`jitter=True`). -/
def defaultRetryConfig : RetryConfig :=
  { max_attempts := 3, base_delay := 1, max_delay := 60
    exponential_backoff := true, jitter := true }

/-- The `self.retry_configs` dictionary built in `ErrorHandler.__init__`:
`some` for the categories present, `none` otherwise. -/
def retry_configs : ErrorCategory → Option RetryConfig
  | .sftp_connection => some { defaultRetryConfig with max_attempts := 5, base_delay := 2 }
  | .sftp_file_operation => some { defaultRetryConfig with max_attempts := 3, base_delay := 1 }
  | .email_notif => some { defaultRetryConfig with max_attempts := 3, base_delay := 2 }
  | .database_operation => some { defaultRetryConfig with max_attempts := 3, base_delay := 1/2 }
  | .file_processing => some { defaultRetryConfig with max_attempts := 2, base_delay := 1 }
  | .document_parsing => some { defaultRetryConfig with max_attempts := 1, base_delay := 0 }
  | .configuration => some { defaultRetryConfig with max_attempts := 1, base_delay := 0 }
  | .validation => some { defaultRetryConfig with max_attempts := 1, base_delay := 0 }
  | _ => none

/-- `self.retry_configs.get(category, RetryConfig())` from
`execute_with_retry`. -/
def retry_config_for (cat : ErrorCategory) : RetryConfig :=
  (retry_configs cat).getD defaultRetryConfig

/-- Python's `list.startswith`-style character-list prefix test, used to
build the substring test below. -/
def starts_with_chars : List Char → List Char → Bool
  | [], _ => true
  | _ :: _, [] => false
  | p :: ps, c :: cs => p == c && starts_with_chars ps cs

/-- Character-list substring test (first argument occurs contiguously in
the second). -/
def substr_in : List Char → List Char → Bool
  | pat, [] => pat.isEmpty
  | pat, c :: rest => starts_with_chars pat (c :: rest) || substr_in pat rest

/-- Python's `pat in s` membership test on strings. -/
def has_substr (s pat : String) : Bool :=
  substr_in pat.data s.data

/-- Python's `str.lower()` (ASCII range, which covers every message and
pattern the error handler compares). -/
def lower_string (s : String) : String :=
  ⟨s.data.map Char.toLower⟩

/-- The `non_recoverable_types` list from
`ErrorHandler._is_recoverable_error`. -/
def non_recoverable_types : List String :=
  ["FileNotFoundError", "PermissionError", "AuthenticationError",
   "SMTPAuthenticationError", "SMTPRecipientsRefused", "ValueError",
   "TypeError", "AttributeError"]

/-- The `non_recoverable_patterns` list from
`ErrorHandler._is_recoverable_error`. -/
def non_recoverable_patterns : List String :=
  ["authentication failed", "invalid credentials", "permission denied",
   "file not found", "invalid format", "malformed", "corrupt"]

/-- `ErrorHandler._is_recoverable_error`: configuration/validation
categories, the fixed exception-type list, and lowercased-message
substring patterns force `false`; everything else is recoverable. -/
def is_recoverable_error (e : PyError) (category : ErrorCategory) : Bool :=
  if category = .configuration ∨ category = .validation then false
  else if e.exc_type ∈ non_recoverable_types then false
  else if non_recoverable_patterns.any (fun pat => has_substr (lower_string e.msg) pat) then false
  else true

/-- `ErrorHandler._determine_error_severity`. -/
def determine_error_severity (e : PyError) (category : ErrorCategory) : ErrorSeverity :=
  let message := lower_string e.msg
  if category = .configuration then .critical
  else if e.exc_type ∈ ["SystemExit", "KeyboardInterrupt", "MemoryError"] then .critical
  else if category = .sftp_connection ∨ category = .database_operation then .high
  else if has_substr message "authentication" || has_substr message "permission" then .high
  else if category = .file_processing ∨ category = .email_notif then .medium
  else if category = .document_parsing ∨ category = .validation then .low
  else .medium

/-- `ErrorHandler._calculate_retry_delay`.  `jitter_rand` is the value
returned by `random.random()` (a real in `[0, 1)`). -/
def calculate_retry_delay (attempt : Nat) (config : RetryConfig) (jitter_rand : ℚ) : ℚ :=
  let delay :=
    if config.exponential_backoff then
      min (config.base_delay * 2 ^ attempt) config.max_delay
    else
      config.base_delay
  if config.jitter then delay * (1/2 + jitter_rand * (1/2)) else delay

/-- The fields of the `ErrorContext` dataclass that the claims observe
(timestamp, stack trace and the free-form additional data are
omitted). -/
structure ErrorContext where
  category : ErrorCategory
  severity : ErrorSeverity
  component : String
  operation : String
  error_message : String
  exception_type : String
  retry_count : Nat
  max_retries : Nat
  is_recoverable : Bool
  deriving DecidableEq, Repr

/-- The `ErrorContext` built by `ErrorHandler.handle_error`. -/
def handle_error_ctx (e : PyError) (category : ErrorCategory) (severity : ErrorSeverity)
    (component operation : String) (retry_count max_retries : Nat) : ErrorContext :=
  { category := category, severity := severity, component := component
    operation := operation, error_message := e.msg, exception_type := e.exc_type
    retry_count := retry_count, max_retries := max_retries
    is_recoverable := is_recoverable_error e category }

/-- Observable events of one `execute_with_retry` run: a backoff sleep
before retry attempt `attempt`, an invocation of the wrapped operation
(0-indexed), and an `ErrorContext` recorded through `handle_error`. -/
inductive RetryEvent where
  | sleep (attempt : Nat) (delay : ℚ)
  | invoke (attempt : Nat)
  | record (ctx : ErrorContext)
  deriving DecidableEq, Repr

/-- Outcome of `execute_with_retry`: a normal return, a re-raised
exception, or the implicit `None` fall-through when the loop body never
runs (`max_attempts = 0`, unreachable for the shipped configs). -/
inductive RetryOutcome (α : Type) where
  | returned (v : α)
  | raised (e : PyError)
  | returnedNone
  deriving DecidableEq, Repr

/-- The `for attempt in range(max_attempts)` loop of
`ErrorHandler.execute_with_retry`, by structural recursion on the
remaining attempts.  `op k` is the result of the `k`-th call of the
wrapped operation, `jf k` the `random.random()` sample used for the
sleep before invocation `k`, and `last` the `last_error` variable. -/
def execute_with_retry_go {α : Type} (op : Nat → Except PyError α) (category : ErrorCategory)
    (config : RetryConfig) (jf : Nat → ℚ) (component opname : String) :
    Nat → Nat → Option PyError → List RetryEvent × RetryOutcome α
  | 0, _, last =>
    ([], match last with
         | some e => .raised e
         | none => .returnedNone)
  | n + 1, attempt, _ =>
    let pre : List RetryEvent :=
      if 0 < attempt then
        [.sleep attempt (calculate_retry_delay attempt config (jf attempt))]
      else []
    match op attempt with
    | .ok v => (pre ++ [.invoke attempt], .returned v)
    | .error e =>
      let severity :=
        if attempt = config.max_attempts - 1 then determine_error_severity e category
        else .low
      let ctx := handle_error_ctx e category severity component opname
        attempt (config.max_attempts - 1)
      if ctx.is_recoverable then
        let r := execute_with_retry_go op category config jf component opname n
          (attempt + 1) (some e)
        (pre ++ .invoke attempt :: .record ctx :: r.1, r.2)
      else
        (pre ++ [.invoke attempt, .record ctx], .raised e)

/-- `ErrorHandler.execute_with_retry`: run the loop with the category's
retry configuration, starting at attempt 0 with no previous error. -/
def execute_with_retry {α : Type} (op : Nat → Except PyError α) (category : ErrorCategory)
    (jf : Nat → ℚ) (component opname : String) : List RetryEvent × RetryOutcome α :=
  let config := retry_config_for category
  execute_with_retry_go op category config jf component opname config.max_attempts 0 none

/-- Number of invocations of the wrapped operation in a trace. -/
def count_invokes : List RetryEvent → Nat
  | [] => 0
  | .invoke _ :: rest => count_invokes rest + 1
  | _ :: rest => count_invokes rest

/-- Every sleep in the trace is immediately followed by an invocation of
the same attempt index, and that index is at least 1 (so a sleep happens
only directly before a retry invocation, never after the final
attempt). -/
def sleeps_precede_retries : List RetryEvent → Bool
  | [] => true
  | .sleep k _ :: rest =>
    (match rest with
     | .invoke k2 :: _ => k == k2 && decide (1 ≤ k)
     | _ => false) && sleeps_precede_retries rest
  | _ :: rest => sleeps_precede_retries rest

/-- All sleep and invocation attempt indices in the trace are below the
given bound. -/
def events_below (bound : Nat) : List RetryEvent → Bool
  | [] => true
  | .sleep k _ :: rest => decide (k < bound) && events_below bound rest
  | .invoke k :: rest => decide (k < bound) && events_below bound rest
  | .record _ :: rest => events_below bound rest

/-- Every recorded `ErrorContext` in the trace has
`retry_count ≤ maxA - 1` and `max_retries = maxA - 1`. -/
def records_ok (maxA : Nat) : List RetryEvent → Bool
  | [] => true
  | .record ctx :: rest =>
    decide (ctx.retry_count ≤ maxA - 1) && decide (ctx.max_retries = maxA - 1) &&
      records_ok maxA rest
  | _ :: rest => records_ok maxA rest

theorem starts_with_chars_iff (p l : List Char) :
    starts_with_chars p l = true ↔ p <+: l := by
  induction p generalizing l with
  | nil => simp [starts_with_chars]
  | cons a ps ih =>
    cases l with
    | nil => simp [starts_with_chars]
    | cons b bs =>
      simp [starts_with_chars, ih, List.cons_prefix_cons, and_comm]

theorem substr_in_iff (p l : List Char) :
    substr_in p l = true ↔ p <:+: l := by
  induction l with
  | nil =>
    simp [substr_in, List.isEmpty_iff, List.infix_nil]
  | cons c cs ih =>
    simp [substr_in, starts_with_chars_iff, ih, List.infix_cons_iff]

theorem has_substr_iff (s pat : String) :
    has_substr s pat = true ↔ pat.data <:+: s.data :=
  substr_in_iff pat.data s.data

theorem count_invokes_go_le {α : Type} (op : Nat → Except PyError α)
    (category : ErrorCategory) (config : RetryConfig) (jf : Nat → ℚ)
    (component opname : String) :
    ∀ n a last,
      count_invokes
        (execute_with_retry_go op category config jf component opname n a last).1 ≤ n := by
  intro n
  induction n with
  | zero =>
    intro a last
    simp [execute_with_retry_go, count_invokes]
  | succ n ih =>
    intro a last
    simp only [execute_with_retry_go]
    cases hop : op a with
    | ok v =>
      by_cases ha : 0 < a <;> simp [ha, count_invokes]
    | error e =>
      simp only [handle_error_ctx]
      by_cases hrec : is_recoverable_error e category = true
      · have := ih (a + 1) (some e)
        by_cases ha : 0 < a <;> simp [ha, hrec, count_invokes] <;> omega
      · rw [Bool.not_eq_true] at hrec
        by_cases ha : 0 < a <;> simp [ha, hrec, count_invokes]

theorem sleeps_precede_retries_go {α : Type} (op : Nat → Except PyError α)
    (category : ErrorCategory) (config : RetryConfig) (jf : Nat → ℚ)
    (component opname : String) :
    ∀ n a last,
      sleeps_precede_retries
        (execute_with_retry_go op category config jf component opname n a last).1 = true := by
  intro n
  induction n with
  | zero =>
    intro a last
    simp [execute_with_retry_go, sleeps_precede_retries]
  | succ n ih =>
    intro a last
    simp only [execute_with_retry_go]
    cases hop : op a with
    | ok v =>
      by_cases ha : 0 < a <;> simp [ha, sleeps_precede_retries] <;> omega
    | error e =>
      simp only [handle_error_ctx]
      by_cases hrec : is_recoverable_error e category = true
      · have := ih (a + 1) (some e)
        by_cases ha : 0 < a <;> simp [ha, hrec, sleeps_precede_retries, this] <;> omega
      · rw [Bool.not_eq_true] at hrec
        by_cases ha : 0 < a <;> simp [ha, hrec, sleeps_precede_retries] <;> omega

theorem events_below_go {α : Type} (op : Nat → Except PyError α)
    (category : ErrorCategory) (config : RetryConfig) (jf : Nat → ℚ)
    (component opname : String) :
    ∀ n a last bound, a + n ≤ bound →
      events_below bound
        (execute_with_retry_go op category config jf component opname n a last).1 = true := by
  intro n
  induction n with
  | zero =>
    intro a last bound hb
    simp [execute_with_retry_go, events_below]
  | succ n ih =>
    intro a last bound hb
    simp only [execute_with_retry_go]
    cases hop : op a with
    | ok v =>
      by_cases ha : 0 < a <;> simp [ha, events_below] <;> omega
    | error e =>
      simp only [handle_error_ctx]
      by_cases hrec : is_recoverable_error e category = true
      · have := ih (a + 1) (some e) bound (by omega)
        by_cases ha : 0 < a <;> simp [ha, hrec, events_below, this] <;> omega
      · rw [Bool.not_eq_true] at hrec
        by_cases ha : 0 < a <;> simp [ha, hrec, events_below] <;> omega

theorem records_ok_go {α : Type} (op : Nat → Except PyError α)
    (category : ErrorCategory) (config : RetryConfig) (jf : Nat → ℚ)
    (component opname : String) :
    ∀ n a last, a + n ≤ config.max_attempts →
      records_ok config.max_attempts
        (execute_with_retry_go op category config jf component opname n a last).1 = true := by
  intro n
  induction n with
  | zero =>
    intro a last _
    simp [execute_with_retry_go, records_ok]
  | succ n ih =>
    intro a last hb
    simp only [execute_with_retry_go]
    cases hop : op a with
    | ok v =>
      by_cases ha : 0 < a <;> simp [ha, records_ok]
    | error e =>
      simp only [handle_error_ctx]
      by_cases hrec : is_recoverable_error e category = true
      · have := ih (a + 1) (some e) (by omega)
        by_cases ha : 0 < a <;> simp [ha, hrec, records_ok, handle_error_ctx, this] <;> omega
      · rw [Bool.not_eq_true] at hrec
        by_cases ha : 0 < a <;> simp [ha, hrec, records_ok, handle_error_ctx] <;> omega

/-- C2: one run of `execute_with_retry` invokes the wrapped operation at
most `max_attempts` times; every backoff sleep is immediately followed
by a retry invocation with the same 0-indexed attempt number `k`,
`1 ≤ k < max_attempts` (so no sleep ever happens after the final
attempt). -/
theorem execute_with_retry_attempt_bound {α : Type} (op : Nat → Except PyError α)
    (category : ErrorCategory) (jf : Nat → ℚ) (component opname : String) :
    count_invokes (execute_with_retry op category jf component opname).1 ≤
      (retry_config_for category).max_attempts ∧
    sleeps_precede_retries (execute_with_retry op category jf component opname).1 = true ∧
    events_below (retry_config_for category).max_attempts
      (execute_with_retry op category jf component opname).1 = true :=
  ⟨count_invokes_go_le op category (retry_config_for category) jf component opname
      (retry_config_for category).max_attempts 0 none,
   sleeps_precede_retries_go op category (retry_config_for category) jf component opname
      (retry_config_for category).max_attempts 0 none,
   events_below_go op category (retry_config_for category) jf component opname
      (retry_config_for category).max_attempts 0 none
      (retry_config_for category).max_attempts (by omega)⟩

/-- C9: every `ErrorContext` recorded during `execute_with_retry` has
`retry_count ≤ max_attempts - 1`, and its `max_retries` field equals
`max_attempts - 1`, for the category's configured `max_attempts`. -/
theorem execute_with_retry_retry_count_bound {α : Type} (op : Nat → Except PyError α)
    (category : ErrorCategory) (jf : Nat → ℚ) (component opname : String) :
    records_ok (retry_config_for category).max_attempts
      (execute_with_retry op category jf component opname).1 = true :=
  records_ok_go op category (retry_config_for category) jf component opname
    (retry_config_for category).max_attempts 0 none (by omega)

theorem execute_with_retry_go_all_fail {α : Type} (op : Nat → Except PyError α)
    (category : ErrorCategory) (config : RetryConfig) (jf : Nat → ℚ)
    (component opname : String) (e : Nat → PyError) :
    ∀ n a last, 1 ≤ n →
      (∀ k, a ≤ k → k < a + n → op k = .error (e k)) →
      (∀ k, a ≤ k → k < a + n → is_recoverable_error (e k) category = true) →
      (execute_with_retry_go op category config jf component opname n a last).2 =
        .raised (e (a + n - 1)) := by
  intro n
  induction n with
  | zero =>
    intro a last h
    omega
  | succ n ih =>
    intro a last _ hop hrec
    have hopa : op a = .error (e a) := hop a le_rfl (by omega)
    have hra : is_recoverable_error (e a) category = true := hrec a le_rfl (by omega)
    rcases Nat.eq_zero_or_pos n with hn | hn
    · subst hn
      simp [execute_with_retry_go, hopa, handle_error_ctx, hra]
    · have hidx : a + 1 + n - 1 = a + (n + 1) - 1 := by omega
      have := ih (a + 1) (some (e a)) hn
        (fun k h1 h2 => hop k (by omega) (by omega))
        (fun k h1 h2 => hrec k (by omega) (by omega))
      rw [hidx] at this
      simp [execute_with_retry_go, hopa, handle_error_ctx, hra, this]

theorem execute_with_retry_go_nonrecoverable {α : Type} (op : Nat → Except PyError α)
    (category : ErrorCategory) (config : RetryConfig) (jf : Nat → ℚ)
    (component opname : String) (e : Nat → PyError) :
    ∀ n a last j, j < n →
      (∀ k, a ≤ k → k ≤ a + j → op k = .error (e k)) →
      (∀ k, a ≤ k → k < a + j → is_recoverable_error (e k) category = true) →
      is_recoverable_error (e (a + j)) category = false →
      (execute_with_retry_go op category config jf component opname n a last).2 =
        .raised (e (a + j)) ∧
      count_invokes
        (execute_with_retry_go op category config jf component opname n a last).1 =
        j + 1 := by
  intro n
  induction n with
  | zero =>
    intro a last j h
    omega
  | succ n ih =>
    intro a last j hj hop hrec hnr
    have hopa : op a = .error (e a) := hop a le_rfl (by omega)
    rcases Nat.eq_zero_or_pos j with hj0 | hjpos
    · subst hj0
      have hna : is_recoverable_error (e a) category = false := by simpa using hnr
      constructor
      · simp [execute_with_retry_go, hopa, handle_error_ctx, hna]
      · by_cases ha : 0 < a <;>
          simp [execute_with_retry_go, hopa, handle_error_ctx, hna, ha, count_invokes]
    · have hra : is_recoverable_error (e a) category = true := hrec a le_rfl (by omega)
      have hidx : a + 1 + (j - 1) = a + j := by omega
      have hrest := ih (a + 1) (some (e a)) (j - 1) (by omega)
        (fun k h1 h2 => hop k (by omega) (by omega))
        (fun k h1 h2 => hrec k (by omega) (by omega))
        (by rw [hidx]; exact hnr)
      rw [hidx] at hrest
      constructor
      · simp [execute_with_retry_go, hopa, handle_error_ctx, hra, hrest.1]
      · by_cases ha : 0 < a <;>
          simp [execute_with_retry_go, hopa, handle_error_ctx, hra, ha, count_invokes,
            hrest.2] <;> omega

/-- C4: if the wrapped operation fails on all `max_attempts` attempts
and every failure is recoverable, `execute_with_retry` re-raises the
error of the last attempt; and if attempts `0..j-1` fail recoverably and
attempt `j`'s error is non-recoverable, it re-raises that error
immediately after `j + 1` invocations, without the remaining
attempts. -/
theorem execute_with_retry_failure_spec {α : Type} (op : Nat → Except PyError α)
    (category : ErrorCategory) (jf : Nat → ℚ) (component opname : String)
    (e : Nat → PyError) :
    (1 ≤ (retry_config_for category).max_attempts →
      (∀ k, k < (retry_config_for category).max_attempts → op k = .error (e k)) →
      (∀ k, k < (retry_config_for category).max_attempts →
        is_recoverable_error (e k) category = true) →
      (execute_with_retry op category jf component opname).2 =
        .raised (e ((retry_config_for category).max_attempts - 1))) ∧
    (∀ j, j < (retry_config_for category).max_attempts →
      (∀ k, k ≤ j → op k = .error (e k)) →
      (∀ k, k < j → is_recoverable_error (e k) category = true) →
      is_recoverable_error (e j) category = false →
      (execute_with_retry op category jf component opname).2 = .raised (e j) ∧
      count_invokes (execute_with_retry op category jf component opname).1 = j + 1) := by
  constructor
  · intro h1 hop hrec
    have := execute_with_retry_go_all_fail op category (retry_config_for category) jf
      component opname e (retry_config_for category).max_attempts 0 none h1
      (fun k _ h2 => hop k (by omega)) (fun k _ h2 => hrec k (by omega))
    simpa using this
  · intro j hj hop hrec hnr
    have := execute_with_retry_go_nonrecoverable op category (retry_config_for category) jf
      component opname e (retry_config_for category).max_attempts 0 none j hj
      (fun k _ h2 => hop k (by omega)) (fun k _ h2 => hrec k (by omega))
      (by simpa using hnr)
    simpa using this

/-- Always-failing operation used by the C4 witness. -/
def op_fail_w : Nat → Except PyError Unit :=
  fun _ => .error ⟨"ConnectionError", "timed out"⟩

/-- Error sequence of `op_fail_w`. -/
def e_fail_w : Nat → PyError :=
  fun _ => ⟨"ConnectionError", "timed out"⟩

/-- Error sequence that turns non-recoverable on the second attempt,
used by the C4 witness. -/
def e_nr_w : Nat → PyError :=
  fun k => if k = 0 then ⟨"Timeout", "slow"⟩ else ⟨"ValueError", "bad"⟩

/-- Operation raising `e_nr_w` on every attempt. -/
def op_nr_w : Nat → Except PyError Unit :=
  fun k => .error (e_nr_w k)

/-- Degenerate jitter sample used by witnesses. -/
def jf_zero : Nat → ℚ :=
  fun _ => 0

/-- Witness for `execute_with_retry_failure_spec`: with category
`sftp_connection` (5 attempts), an always-failing recoverable operation
re-raises the final error, and an operation whose second error is a
`ValueError` stops after exactly 2 invocations re-raising it. -/
theorem execute_with_retry_failure_spec_witness :
    (execute_with_retry op_fail_w .sftp_connection jf_zero "comp" "op").2 =
      .raised ⟨"ConnectionError", "timed out"⟩ ∧
    (execute_with_retry op_nr_w .sftp_connection jf_zero "comp" "op").2 =
      .raised ⟨"ValueError", "bad"⟩ ∧
    count_invokes (execute_with_retry op_nr_w .sftp_connection jf_zero "comp" "op").1 = 2 := by
  have hConn : is_recoverable_error ⟨"ConnectionError", "timed out"⟩ .sftp_connection = true := by
    decide
  have hTimeout : is_recoverable_error ⟨"Timeout", "slow"⟩ .sftp_connection = true := by
    decide
  have hVal : is_recoverable_error ⟨"ValueError", "bad"⟩ .sftp_connection = false := by
    decide
  have hballs : ∀ k, k < 1 → is_recoverable_error (e_nr_w k) .sftp_connection = true := by
    intro k hk
    interval_cases k
    exact hTimeout
  refine ⟨?_, ?_, ?_⟩
  · exact (execute_with_retry_failure_spec op_fail_w .sftp_connection jf_zero "comp" "op"
      e_fail_w).1 (by decide) (fun k _ => rfl) (fun k _ => hConn)
  · exact ((execute_with_retry_failure_spec op_nr_w .sftp_connection jf_zero "comp" "op"
      e_nr_w).2 1 (by decide) (fun k _ => rfl) hballs hVal).1
  · exact ((execute_with_retry_failure_spec op_nr_w .sftp_connection jf_zero "comp" "op"
      e_nr_w).2 1 (by decide) (fun k _ => rfl) hballs hVal).2

/-- C3: under exponential backoff, the pre-jitter delay for 0-indexed
retry attempt `k` is `min (b * 2 ^ k) m`; with jitter enabled the final
delay is that value times a factor in `[1/2, 1]` (the factor is
`1/2 + jitter_rand / 2` for the uniform sample `jitter_rand ∈ [0, 1)`). -/
theorem calculate_retry_delay_spec (k : Nat) (config : RetryConfig) (jitter_rand : ℚ)
    (hexp : config.exponential_backoff = true) :
    (config.jitter = false →
      calculate_retry_delay k config jitter_rand =
        min (config.base_delay * 2 ^ k) config.max_delay) ∧
    (config.jitter = true → 0 ≤ jitter_rand → jitter_rand < 1 →
      ∃ f : ℚ, 1/2 ≤ f ∧ f ≤ 1 ∧
        calculate_retry_delay k config jitter_rand =
          min (config.base_delay * 2 ^ k) config.max_delay * f) := by
  constructor
  · intro hj
    simp [calculate_retry_delay, hexp, hj]
  · intro hj h0 h1
    refine ⟨1/2 + jitter_rand * (1/2), by linarith, by linarith, ?_⟩
    simp [calculate_retry_delay, hexp, hj]

/-- Witness for `calculate_retry_delay_spec` at a concrete configuration
(`b = 3`, `m = 20`, attempt `2`, jitter sample `1/3`). -/
theorem calculate_retry_delay_spec_witness :
    ∃ f : ℚ, 1/2 ≤ f ∧ f ≤ 1 ∧
      calculate_retry_delay 2
        { max_attempts := 3, base_delay := 3, max_delay := 20
          exponential_backoff := true, jitter := true } (1/3) =
        min ((3 : ℚ) * 2 ^ 2) 20 * f :=
  (calculate_retry_delay_spec 2
    { max_attempts := 3, base_delay := 3, max_delay := 20
      exponential_backoff := true, jitter := true } (1/3) rfl).2
    rfl (by norm_num) (by norm_num)

/-- C5: the recoverability flag is `false` exactly when the category is
configuration or validation, the exception type is in the fixed
non-recoverable list, or the lowercased message contains one of the
fixed non-recoverable substrings; every other error is recoverable. -/
theorem is_recoverable_error_spec (e : PyError) (category : ErrorCategory) :
    is_recoverable_error e category = false ↔
      ((category = .configuration ∨ category = .validation) ∨
       e.exc_type ∈ non_recoverable_types ∨
       ∃ pat ∈ non_recoverable_patterns, pat.data <:+: (lower_string e.msg).data) := by
  unfold is_recoverable_error
  split_ifs with hc ht hp
  · exact iff_of_true rfl (Or.inl hc)
  · exact iff_of_true rfl (Or.inr (Or.inl ht))
  · rw [List.any_eq_true] at hp
    obtain ⟨pat, hmem, hsub⟩ := hp
    exact iff_of_true rfl
      (Or.inr (Or.inr ⟨pat, hmem, (has_substr_iff _ _).mp hsub⟩))
  · refine iff_of_false (by simp) ?_
    rintro (h | h | ⟨pat, hmem, hsub⟩)
    · exact hc h
    · exact ht h
    · exact hp (List.any_eq_true.mpr ⟨pat, hmem, (has_substr_iff _ _).mpr hsub⟩)

/-- `ActionResult` dataclass from `config/models.py`. -/
structure ActionResult where
  action_name : String
  success : Bool
  duration : ℚ
  error_message : Option String
  deriving DecidableEq, Repr

instance {ε α : Type} [DecidableEq ε] [DecidableEq α] : DecidableEq (Except ε α) := fun a b =>
  match a, b with
  | .ok x, .ok y =>
    if h : x = y then .isTrue (by rw [h]) else .isFalse (by simp [h])
  | .error x, .error y =>
    if h : x = y then .isTrue (by rw [h]) else .isFalse (by simp [h])
  | .ok _, .error _ => .isFalse (fun h => Except.noConfusion h)
  | .error _, .ok _ => .isFalse (fun h => Except.noConfusion h)

/-- One entry of the `actions` list passed to
`ParallelActionExecutor.execute_parallel`: the optional `'name'` key,
the optional `'function'` key (embedded by its outcome: `.ok` if the
callable returns, `.error` if it raises), and the elapsed duration the
action takes when run. -/
structure ActionSpec where
  name : Option String
  func : Option (Except PyError Unit)
  dur : ℚ
  deriving DecidableEq, Repr

/-- `ParallelActionExecutor._execute_action`: a raising callable is
caught at the action boundary and becomes a failed result carrying the
error message. -/
def execute_action (action_name : String) (f : Except PyError Unit) (dur : ℚ) : ActionResult :=
  match f with
  | .ok _ => ⟨action_name, true, dur, none⟩
  | .error e => ⟨action_name, false, dur, some e.msg⟩

/-- Processing of one submitted action dictionary inside
`execute_parallel`: a missing `'function'` yields the immediate failed
result, otherwise `_execute_action` runs. -/
def run_action_spec (a : ActionSpec) : ActionResult :=
  match a.func with
  | none => ⟨a.name.getD "unknown", false, 0, some "No function provided"⟩
  | some f => execute_action (a.name.getD "unknown") f a.dur

/-- `ParallelActionExecutor.execute_parallel`.  The thread pool's
`as_completed` collection order is abstracted to submission order (the
returned collection is a permutation of it); each submitted action
yields exactly one result, independently of its siblings. -/
def execute_parallel (actions : List ActionSpec) : List ActionResult :=
  actions.map run_action_spec

/-- Default used to state indexed facts about `execute_parallel`. -/
def default_action_result : ActionResult :=
  ⟨"", false, 0, none⟩

/-- Default used to state indexed facts about action lists. -/
def default_action_spec : ActionSpec :=
  ⟨none, none, 0⟩

theorem getD_map_run_action_spec (l : List ActionSpec) (i : Nat)
    (h : i < l.length) :
    (l.map run_action_spec).getD i default_action_result =
      run_action_spec (l.getD i default_action_spec) := by
  induction l generalizing i with
  | nil => simp at h
  | cons x xs ih =>
    cases i with
    | zero => rfl
    | succ n => exact ih n (by simpa using h)

theorem bang_success_run_action_spec (a : ActionSpec) :
    (!(run_action_spec a).success) =
      (match a.func with
       | some (.ok _) => false
       | _ => true) := by
  rcases a with ⟨nm, fn, d⟩
  rcases fn with _ | f
  · rfl
  · rcases f with v | e <;> rfl

/-- C7: `execute_parallel` returns exactly one result per submitted
action; the number of failed results equals the number of actions whose
callable raises or is missing; at every index, a returning callable
yields a success result and a raising callable yields a failed result
carrying that error's message — siblings are unaffected. -/
theorem execute_parallel_isolation (actions : List ActionSpec) :
    (execute_parallel actions).length = actions.length ∧
    (execute_parallel actions).countP (fun r => !r.success) =
      actions.countP (fun a =>
        match a.func with
        | some (.ok _) => false
        | _ => true) ∧
    ∀ i, i < actions.length →
      (((actions.getD i default_action_spec).func = some (.ok ()) →
        (execute_parallel actions).getD i default_action_result =
          ⟨(actions.getD i default_action_spec).name.getD "unknown", true,
           (actions.getD i default_action_spec).dur, none⟩) ∧
       (∀ e, (actions.getD i default_action_spec).func = some (.error e) →
        (execute_parallel actions).getD i default_action_result =
          ⟨(actions.getD i default_action_spec).name.getD "unknown", false,
           (actions.getD i default_action_spec).dur, some e.msg⟩)) := by
  refine ⟨by simp [execute_parallel], ?_, ?_⟩
  · rw [execute_parallel, List.countP_map]
    exact List.countP_congr (fun a _ => by
      rw [Function.comp_apply, bang_success_run_action_spec])
  · intro i hi
    rw [execute_parallel, getD_map_run_action_spec actions i hi]
    constructor
    · intro hfn
      rw [run_action_spec, hfn]
      rfl
    · intro e hfn
      rw [run_action_spec, hfn]
      rfl

/-- Concrete 3-action batch for the C7 witness: "B" raises. -/
def w7_actions : List ActionSpec :=
  [⟨some "A", some (.ok ()), 1⟩,
   ⟨some "B", some (.error ⟨"RuntimeError", "boom"⟩), 2⟩,
   ⟨some "C", some (.ok ()), 3⟩]

/-- Witness for `execute_parallel_isolation`: a batch of 3 actions where
"B" raises returns 3 results, exactly one failed — "B" with message
"boom" — while "A" and "C" report success. -/
theorem execute_parallel_isolation_witness :
    (execute_parallel w7_actions).length = 3 ∧
    (execute_parallel w7_actions).countP (fun r => !r.success) = 1 ∧
    (execute_parallel w7_actions).getD 0 default_action_result = ⟨"A", true, 1, none⟩ ∧
    (execute_parallel w7_actions).getD 1 default_action_result =
      ⟨"B", false, 2, some "boom"⟩ ∧
    (execute_parallel w7_actions).getD 2 default_action_result = ⟨"C", true, 3, none⟩ := by
  obtain ⟨h1, h2, h3⟩ := execute_parallel_isolation w7_actions
  refine ⟨by rw [h1]; rfl, by rw [h2]; rfl, ?_, ?_, ?_⟩
  · exact (h3 0 (by decide)).1 rfl
  · exact (h3 1 (by decide)).2 ⟨"RuntimeError", "boom"⟩ rfl
  · exact (h3 2 (by decide)).1 rfl

/-- `DownloadResult` dataclass from `config/models.py`. -/
structure DownloadResult where
  type_folder : String
  filename : String
  size : Nat
  success : Bool
  error_message : Option String
  deriving DecidableEq, Repr

/-- `ProcessingStats` dataclass from `config/models.py` (the spec's
CycleStats).  The `type_folders_scanned` dict is an association list;
timestamps are the ISO strings the code stores. -/
structure ProcessingStats where
  date_folder : String
  start_time : String
  end_time : String
  type_folders_scanned : List (String × Nat)
  files_downloaded : List DownloadResult
  documents_processed : Nat
  records_extracted : Nat
  csv_filename : String
  csv_size : Nat
  upload_status : String
  log_filename : String
  email_sent : Bool
  errors : List String
  deriving DecidableEq, Repr

/-- One fan-out batch handed to `ParallelActionExecutor.execute_parallel`
by `MainController._execute_parallel_actions`: the submitted action
names, in submission order, together with the value of the (mutable)
`stats` object at the moment of submission. -/
structure WaveSubmission where
  names : List String
  stats_at_submission : ProcessingStats
  deriving DecidableEq, Repr

/-- `MainController._get_upload_status`: first result named
`upload_csv` decides the status (`"None"` renders Python's `None` in
the failure f-string). -/
def get_upload_status (action_results : List ActionResult) : String :=
  match action_results.find? (fun r => r.action_name == "upload_csv") with
  | some r => if r.success then "SUCCESS" else "FAILED: " ++ r.error_message.getD "None"
  | none => "UNKNOWN"

/-- `MainController._get_email_status`. -/
def get_email_status (action_results : List ActionResult) : Bool :=
  match action_results.find? (fun r => r.action_name == "send_email") with
  | some r => r.success
  | none => false

/-- `MainController._get_log_filename`: on the first successful
`create_log` result, return the first `processing_log_*.txt` glob entry
of the date folder (`log_files` is that glob, an oracle); with an empty
glob the scan continues and ends in `""`. -/
def get_log_filename : List ActionResult → List String → String
  | [], _ => ""
  | r :: rest, log_files =>
    if r.action_name == "create_log" && r.success then
      match log_files.head? with
      | some f => f
      | none => get_log_filename rest log_files
    else
      get_log_filename rest log_files

/-- `MainController._execute_parallel_actions`: Wave 1 submits
`upload_csv` and `create_log` together; their collected results update
`stats.upload_status` and `stats.log_filename`; only then is
`send_email` submitted alone, closing over the updated stats.  The
outcome/duration of each action and the date folder's log-file glob are
oracles.  Returns the updated stats, the combined result list, and the
submission trace (one `WaveSubmission` per `execute_parallel` call, in
call order). -/
def execute_parallel_actions (stats : ProcessingStats)
    (upload_outcome log_outcome email_outcome : Except PyError Unit)
    (upload_dur log_dur email_dur : ℚ) (log_files : List String) :
    ProcessingStats × List ActionResult × List WaveSubmission :=
  let initial_actions : List ActionSpec :=
    [⟨some "upload_csv", some upload_outcome, upload_dur⟩,
     ⟨some "create_log", some log_outcome, log_dur⟩]
  let initial_results := execute_parallel initial_actions
  let stats1 :=
    { stats with
        upload_status := get_upload_status initial_results
        log_filename := get_log_filename initial_results log_files }
  let email_action : List ActionSpec := [⟨some "send_email", some email_outcome, email_dur⟩]
  let email_result := execute_parallel email_action
  (stats1, initial_results ++ email_result,
   [⟨initial_actions.map (fun a => a.name.getD "unknown"), stats⟩,
    ⟨email_action.map (fun a => a.name.getD "unknown"), stats1⟩])

/-- C1: the submission trace of `_execute_parallel_actions` is exactly
two batches — Wave 1 = `[upload_csv, create_log]` seeing the incoming
stats, then `send_email` alone — and the stats passed to the
notification submission already carry `upload_status` and
`log_filename` computed from the collected Wave-1 results; `send_email`
is never in the Wave-1 batch. -/
theorem wave2_submitted_after_wave1 (stats : ProcessingStats)
    (upload_outcome log_outcome email_outcome : Except PyError Unit)
    (upload_dur log_dur email_dur : ℚ) (log_files : List String) :
    (execute_parallel_actions stats upload_outcome log_outcome email_outcome
        upload_dur log_dur email_dur log_files).2.2 =
      [⟨["upload_csv", "create_log"], stats⟩,
       ⟨["send_email"],
        { stats with
            upload_status := get_upload_status (execute_parallel
              [⟨some "upload_csv", some upload_outcome, upload_dur⟩,
               ⟨some "create_log", some log_outcome, log_dur⟩])
            log_filename := get_log_filename (execute_parallel
              [⟨some "upload_csv", some upload_outcome, upload_dur⟩,
               ⟨some "create_log", some log_outcome, log_dur⟩]) log_files }⟩] ∧
    ∀ w ∈ (execute_parallel_actions stats upload_outcome log_outcome email_outcome
        upload_dur log_dur email_dur log_files).2.2,
      "send_email" ∈ w.names → w.names = ["send_email"] := by
  refine ⟨rfl, ?_⟩
  intro w hw hmem
  simp only [execute_parallel_actions, List.mem_cons, List.mem_singleton,
    List.not_mem_nil, or_false] at hw
  rcases hw with hw | hw
  · subst hw
    simp at hmem
  · subst hw
    rfl

/-- Python's `os.path.basename` for the forward-slash paths this code
builds. -/
def basename (p : String) : String :=
  (p.splitOn "/").getLastD p

/-- Phases of `MainController.run_processing_cycle`, in program order
(steps 1-6 of the method). -/
inductive Phase where
  | create_date_folder
  | scan
  | download
  | process
  | parallel_actions
  | backup
  deriving DecidableEq, Repr

/-- Oracle inputs of one run of `run_processing_cycle`: result of each
effectful phase (an `Except` captures a phase that raises), the clock
strings, the csv size reported by the file system, per-action outcomes
and durations for the parallel phase, and the date folder's
`processing_log_*.txt` glob. -/
structure CycleWorld where
  start_time : String
  mid_time : String
  end_time : String
  date_folder : Except PyError String
  scan_results : Except PyError (List (String × List String))
  download_results : Except PyError (List DownloadResult)
  processed : Except PyError (List String × String)
  csv_size : Nat
  upload_outcome : Except PyError Unit
  log_outcome : Except PyError Unit
  email_outcome : Except PyError Unit
  upload_dur : ℚ
  log_dur : ℚ
  email_dur : ℚ
  log_files : List String

/-- `MainController._build_empty_stats`. -/
def build_empty_stats (date_folder start_time end_time : String) : ProcessingStats :=
  { date_folder := date_folder
    start_time := start_time
    end_time := end_time
    type_folders_scanned := []
    files_downloaded := []
    documents_processed := 0
    records_extracted := 0
    csv_filename := ""
    csv_size := 0
    upload_status := "N/A - No files"
    log_filename := ""
    email_sent := false
    errors := [] }

/-- `MainController._build_processing_stats`. -/
def build_processing_stats (date_folder start_time end_time : String)
    (scan_results : List (String × List String)) (download_results : List DownloadResult)
    (records : List String) (csv_path : String) (csv_size : Nat) : ProcessingStats :=
  { date_folder := date_folder
    start_time := start_time
    end_time := end_time
    type_folders_scanned := scan_results.map (fun p => (p.1, p.2.length))
    files_downloaded := download_results
    documents_processed := download_results.length
    records_extracted := records.length
    csv_filename := basename csv_path
    csv_size := csv_size
    upload_status := "Pending"
    log_filename := ""
    email_sent := false
    errors := download_results.filterMap (fun d =>
      match d.error_message with
      | some m => if d.success then none
                  else some ("Download failed: " ++ d.type_folder ++ "/" ++ d.filename ++ " - " ++ m)
      | none => none) }

/-- The `ProcessingError` wrapper raised at the bottom of
`run_processing_cycle`. -/
def wrap_processing_error (e : PyError) : PyError :=
  ⟨"ProcessingError", "Processing cycle failed: " ++ e.msg⟩

/-- `MainController.run_processing_cycle`: create the date folder, scan
(already document-filtered), stop with empty stats when the scan finds
no files or no download succeeds, otherwise download, process, run the
two-wave parallel phase, fold its results into the stats, back up, and
return.  Any phase exception is wrapped into `ProcessingError`.  The
second component lists the phases that were entered. -/
def run_processing_cycle (w : CycleWorld) : Except PyError ProcessingStats × List Phase :=
  match w.date_folder with
  | .error e => (.error (wrap_processing_error e), [.create_date_folder])
  | .ok df =>
    match w.scan_results with
    | .error e => (.error (wrap_processing_error e), [.create_date_folder, .scan])
    | .ok sr =>
      let total_files := (sr.map (fun p => p.2.length)).sum
      if total_files = 0 then
        (.ok (build_empty_stats df w.start_time w.end_time), [.create_date_folder, .scan])
      else
        match w.download_results with
        | .error e => (.error (wrap_processing_error e), [.create_date_folder, .scan, .download])
        | .ok dr =>
          let successful_downloads := dr.countP (fun d => d.success)
          if successful_downloads = 0 then
            (.ok (build_empty_stats df w.start_time w.end_time),
             [.create_date_folder, .scan, .download])
          else
            match w.processed with
            | .error e =>
              (.error (wrap_processing_error e),
               [.create_date_folder, .scan, .download, .process])
            | .ok (records, csv_path) =>
              let stats0 := build_processing_stats df w.start_time w.mid_time sr dr
                records csv_path w.csv_size
              let par := execute_parallel_actions stats0 w.upload_outcome w.log_outcome
                w.email_outcome w.upload_dur w.log_dur w.email_dur w.log_files
              let action_results := par.2.1
              let stats := { par.1 with
                upload_status := get_upload_status action_results
                email_sent := get_email_status action_results
                log_filename := get_log_filename action_results w.log_files
                end_time := w.end_time }
              (.ok stats,
               [.create_date_folder, .scan, .download, .process, .parallel_actions, .backup])

/-- C6: when the (document-filtered) scan finds zero files, the cycle
returns, without raising, the empty stats — no download outcomes, zero
records, upload status `"N/A - No files"` (not applicable), no email —
and the download, process, parallel-actions and backup phases never
run. -/
theorem run_cycle_empty_scan (w : CycleWorld) (df : String)
    (sr : List (String × List String))
    (hdf : w.date_folder = .ok df) (hsr : w.scan_results = .ok sr)
    (hzero : (sr.map (fun p => p.2.length)).sum = 0) :
    run_processing_cycle w =
      (.ok (build_empty_stats df w.start_time w.end_time), [.create_date_folder, .scan]) ∧
    (build_empty_stats df w.start_time w.end_time).files_downloaded = [] ∧
    (build_empty_stats df w.start_time w.end_time).documents_processed = 0 ∧
    (build_empty_stats df w.start_time w.end_time).records_extracted = 0 ∧
    (build_empty_stats df w.start_time w.end_time).upload_status = "N/A - No files" ∧
    (build_empty_stats df w.start_time w.end_time).email_sent = false ∧
    ∀ p ∈ (run_processing_cycle w).2,
      p = Phase.create_date_folder ∨ p = Phase.scan := by
  have hrun : run_processing_cycle w =
      (.ok (build_empty_stats df w.start_time w.end_time), [.create_date_folder, .scan]) := by
    rw [run_processing_cycle, hdf, hsr]
    simp [hzero]
  refine ⟨hrun, rfl, rfl, rfl, rfl, rfl, ?_⟩
  rw [hrun]
  intro p hp
  simpa using hp

/-- Concrete world for the C6 witness: a successful scan that finds two
type folders, both empty after document filtering. -/
def w6_world : CycleWorld :=
  { start_time := "2025-11-24T06:00:00"
    mid_time := "2025-11-24T06:00:01"
    end_time := "2025-11-24T06:00:02"
    date_folder := .ok "2025-11-24"
    scan_results := .ok [("TypeA", []), ("TypeB", [])]
    download_results := .error ⟨"RuntimeError", "unreachable"⟩
    processed := .error ⟨"RuntimeError", "unreachable"⟩
    csv_size := 0
    upload_outcome := .ok ()
    log_outcome := .ok ()
    email_outcome := .ok ()
    upload_dur := 0
    log_dur := 0
    email_dur := 0
    log_files := [] }

/-- Witness for `run_cycle_empty_scan` at the concrete zero-file
world. -/
theorem run_cycle_empty_scan_witness :
    run_processing_cycle w6_world =
      (.ok (build_empty_stats "2025-11-24" "2025-11-24T06:00:00" "2025-11-24T06:00:02"),
       [.create_date_folder, .scan]) ∧
    (build_empty_stats "2025-11-24" "2025-11-24T06:00:00" "2025-11-24T06:00:02").upload_status =
      "N/A - No files" := by
  have h := run_cycle_empty_scan w6_world "2025-11-24" [("TypeA", []), ("TypeB", [])]
    rfl rfl (by decide)
  exact ⟨h.1, h.2.2.2.2.1⟩

/-- `ScheduleConfig` dataclass from `config/models.py` (the fields
`Scheduler.get_next_run_time` reads). -/
structure ScheduleConfig where
  poll_interval_seconds : Int
  poll_cron : Option String
  timezone : String
  deriving DecidableEq, Repr

/-- Python truthiness of the optional cron expression:
`None` and `""` are falsy. -/
def cron_truthy : Option String → Bool
  | none => false
  | some s => !s.isEmpty

/-- `Scheduler.get_next_run_time`.  `cron_next cron tz now` is an oracle
for `croniter(cron, datetime.now(pytz.timezone(tz))).get_next(datetime)`
(as an epoch value) and may raise; any exception is caught and yields
`None`.  In interval mode (falsy `poll_cron`) the method returns `None`
directly. -/
def get_next_run_time (config : ScheduleConfig)
    (cron_next : String → String → Int → Except PyError Int) (now : Int) : Option Int :=
  if cron_truthy config.poll_cron then
    match cron_next (config.poll_cron.getD "") config.timezone now with
    | .ok t => some t
    | .error _ => none
  else
    none

/-- C10: with no cron expression configured (interval mode),
`get_next_run_time` always returns `None`, whatever the clock and the
cron library would say. -/
theorem get_next_run_time_interval_mode (config : ScheduleConfig)
    (cron_next : String → String → Int → Except PyError Int) (now : Int)
    (hmode : cron_truthy config.poll_cron = false) :
    get_next_run_time config cron_next now = none := by
  rw [get_next_run_time, hmode]
  rfl

/-- Witness for `get_next_run_time_interval_mode` at a concrete
interval-mode configuration and an oracle that would return a time. -/
theorem get_next_run_time_interval_mode_witness :
    get_next_run_time ⟨60, none, "UTC"⟩ (fun _ _ now => .ok (now + 60)) 1000 = none :=
  get_next_run_time_interval_mode ⟨60, none, "UTC"⟩ (fun _ _ now => .ok (now + 60)) 1000 rfl

/-- One in-memory `ErrorContext` as seen by the cleanup: its timestamp
(in days, the unit `timedelta(days=retention_days)` subtracts) plus an
opaque payload standing for the rest of the record. -/
structure ErrorLogEntry where
  timestamp : Int
  payload : String
  deriving DecidableEq, Repr

/-- One line of the persistent `error_context.jsonl` store: either a
parseable record with its timestamp, or a malformed line (which the
cleanup silently drops). -/
inductive StoreLine where
  | well_formed (timestamp : Int) (payload : String)
  | malformed (raw : String)
  deriving DecidableEq, Repr

/-- The state `cleanup_old_error_logs` touches: the in-memory
`error_history`, whether `error_context.jsonl` exists, and its lines. -/
structure ErrorHandlerState where
  error_history : List ErrorLogEntry
  store_exists : Bool
  store_lines : List StoreLine
  deriving DecidableEq, Repr

/-- File-system operations the cleanup performs on the persistent
store. -/
inductive FsOp where
  | write_temp (lines : List StoreLine)
  | replace_original
  deriving DecidableEq, Repr

/-- Keep test of the persistent-store rewrite: well-formed lines with
`timestamp >= cutoff` survive, malformed lines are skipped. -/
def store_line_kept (cutoff : Int) : StoreLine → Bool
  | .well_formed t _ => cutoff ≤ t
  | .malformed _ => false

/-- `ErrorHandler.cleanup_old_error_logs`.  `days_to_keep` is the
optional argument, `config_days` the `RetentionConfig` fallback, `now`
the current time in days.  Returns the new state and the file-system
operations performed on the persistent store (full temp write, then
atomic replace). -/
def cleanup_old_error_logs (now : Int) (days_to_keep : Option Int) (config_days : Int)
    (st : ErrorHandlerState) : ErrorHandlerState × List FsOp :=
  let retention_days := days_to_keep.getD config_days
  if retention_days ≤ 0 then
    (st, [])
  else
    let cutoff := now - retention_days
    let new_history := st.error_history.filter (fun e => cutoff ≤ e.timestamp)
    if st.store_exists then
      let kept := st.store_lines.filter (store_line_kept cutoff)
      ({ st with error_history := new_history, store_lines := kept },
       [.write_temp kept, .replace_original])
    else
      ({ st with error_history := new_history }, [])

/-- C8: with resolved retention ≤ 0 the cleanup is a no-op on both the
in-memory history and the persistent store (no file operation); with
retention > 0 both are pruned to entries with timestamp ≥ cutoff
(= now - retention days), and the store is rewritten by writing the
full pruned contents to a temp file and then atomically replacing the
original. -/
theorem cleanup_old_error_logs_spec (now : Int) (days_to_keep : Option Int)
    (config_days : Int) (st : ErrorHandlerState) :
    (days_to_keep.getD config_days ≤ 0 →
      cleanup_old_error_logs now days_to_keep config_days st = (st, [])) ∧
    (0 < days_to_keep.getD config_days →
      (cleanup_old_error_logs now days_to_keep config_days st).1.error_history =
        st.error_history.filter
          (fun e => now - days_to_keep.getD config_days ≤ e.timestamp) ∧
      (st.store_exists = true →
        (cleanup_old_error_logs now days_to_keep config_days st).1.store_lines =
          st.store_lines.filter (store_line_kept (now - days_to_keep.getD config_days)) ∧
        (cleanup_old_error_logs now days_to_keep config_days st).2 =
          [.write_temp (st.store_lines.filter
              (store_line_kept (now - days_to_keep.getD config_days))),
           .replace_original]) ∧
      (st.store_exists = false →
        (cleanup_old_error_logs now days_to_keep config_days st).1.store_lines =
          st.store_lines ∧
        (cleanup_old_error_logs now days_to_keep config_days st).2 = [])) := by
  constructor
  · intro h
    rw [cleanup_old_error_logs]
    simp [h]
  · intro h
    have hneg : ¬ days_to_keep.getD config_days ≤ 0 := by omega
    by_cases hex : st.store_exists
    · refine ⟨?_, fun _ => ⟨?_, ?_⟩, fun hf => absurd hex (by simp [hf])⟩ <;>
        · rw [cleanup_old_error_logs]
          simp [hneg, hex]
    · rw [Bool.not_eq_true] at hex
      refine ⟨?_, fun ht => absurd ht (by simp [hex]), fun _ => ⟨?_, ?_⟩⟩ <;>
        · rw [cleanup_old_error_logs]
          simp [hneg, hex]

/-- Concrete state for the C8 witness. -/
def w8_state : ErrorHandlerState :=
  { error_history := [⟨100, "old"⟩, ⟨200, "new"⟩]
    store_exists := true
    store_lines := [.well_formed 100 "old", .malformed "garbage", .well_formed 200 "new"] }

/-- Witness for `cleanup_old_error_logs_spec`: `days_to_keep = 0`
leaves the state untouched and performs no file operation, while a
7-day retention at `now = 205` prunes both history and store. -/
theorem cleanup_old_error_logs_spec_witness :
    cleanup_old_error_logs 205 (some 0) 30 w8_state = (w8_state, []) ∧
    (cleanup_old_error_logs 205 (some 7) 30 w8_state).1.error_history = [⟨200, "new"⟩] ∧
    (cleanup_old_error_logs 205 (some 7) 30 w8_state).2 =
      [.write_temp [.well_formed 200 "new"], .replace_original] := by
  refine ⟨(cleanup_old_error_logs_spec 205 (some 0) 30 w8_state).1 (by decide), ?_, ?_⟩
  · have h := ((cleanup_old_error_logs_spec 205 (some 7) 30 w8_state).2 (by decide)).1
    rw [h]
    rfl
  · have h := (((cleanup_old_error_logs_spec 205 (some 7) 30 w8_state).2
      (by decide)).2.1 rfl).2
    rw [h]
    rfl

/-- Concrete incoming stats for the C1 witness. -/
def w1_stats : ProcessingStats :=
  build_empty_stats "2025-11-24" "2025-11-24T06:00:00" "2025-11-24T06:00:02"

/-- Witness for `wave2_submitted_after_wave1` at concrete inputs where
both Wave-1 actions succeed: the trace is the two expected batches, the
notification batch carries the updated stats, and the batch containing
`send_email` contains nothing else. -/
theorem wave2_submitted_after_wave1_witness :
    (execute_parallel_actions w1_stats (.ok ()) (.ok ()) (.ok ()) 1 1 1
        ["processing_log_1.txt"]).2.2 =
      [⟨["upload_csv", "create_log"], w1_stats⟩,
       ⟨["send_email"],
        { w1_stats with
            upload_status := "SUCCESS"
            log_filename := "processing_log_1.txt" }⟩] ∧
    (⟨["send_email"],
      { w1_stats with
          upload_status := get_upload_status (execute_parallel
            [⟨some "upload_csv", some (.ok ()), 1⟩, ⟨some "create_log", some (.ok ()), 1⟩])
          log_filename := get_log_filename (execute_parallel
            [⟨some "upload_csv", some (.ok ()), 1⟩, ⟨some "create_log", some (.ok ()), 1⟩])
            ["processing_log_1.txt"] }⟩ : WaveSubmission).names = ["send_email"] := by
  obtain ⟨h1, h2⟩ := wave2_submitted_after_wave1 w1_stats (.ok ()) (.ok ()) (.ok ())
    1 1 1 ["processing_log_1.txt"]
  constructor
  · rw [h1]
    rfl
  · refine h2 _ ?_ (List.mem_singleton.mpr rfl)
    rw [h1]
    exact List.mem_cons_of_mem _ (List.mem_cons_self _ _)
